import Mathlib

/-!
Shallow embedding of `ServerComandProxy.py`, the single module of the
PaperCutSoftware XML web-services client. The module defines one class,
`ServerCommandProxy`, holding connection configuration (`host`, `port`,
`ssl`, `verbose`, a derived `url`, and an `api` handle that is `None`
until a handle is installed), a scoped-acquisition pair
`__enter__`/`__exit__`, and a flat catalogue of forwarding methods, each
a single `return self.api.<name>(...)` statement.

Python values placed on the wire are modelled by `PyVal`; a remote
endpoint is an oracle from wire calls to outcomes; each forwarding
method is embedded as the wire call it constructs (`...Call`) together
with the function that applies the oracle to that call.
-/

namespace PaperCut

/-- A Python value as it appears in an argument list of a forwarding
method: `None`, a string, an integer, a boolean, or the builtin type
object `int` (which occurs in the source as the default value of
the `disableMins` parameter of `disablePrinter`). -/
inductive PyVal where
  | none
  | str (s : String)
  | int (n : Int)
  | bool (b : Bool)
  | typeInt
  deriving DecidableEq, Repr

/-- A remote procedure call as placed on the wire: the procedure name
and the ordered, fixed-arity argument list. -/
structure WireCall where
  name : String
  args : List PyVal
  deriving DecidableEq, Repr

/-- Outcome of a remote round trip: either the result of the remote procedure or a fault raised by the transport or the remote procedure. -/
inductive Outcome where
  | result (v : PyVal)
  | fault (e : PyVal)
  deriving DecidableEq, Repr

/-- Returns `true` exactly when the outcome is a raised fault. -/
def Outcome.isFault : Outcome → Bool
  | Outcome.fault _ => true
  | Outcome.result _ => false

/-- A remote endpoint, abstracted as an oracle mapping each wire call to
the outcome the remote side produces for it. -/
def Remote : Type := WireCall → Outcome

/-- The object built by `xmlrpc.client.ServerProxy(uri=..., verbose=...,
allow_none=...)` in `__enter__`: the three keyword arguments the source
passes are its configuration. -/
structure ServerProxyObj where
  uri : String
  verbose : Bool
  allow_none : Bool
  deriving DecidableEq, Repr

/-- An `xmlrpc.client._Method` object: attribute access on a
`ServerProxy` (or on another `_Method`) yields one of these, carrying
the underlying connection and the dotted call-name accumulated so far.
`self.api` in the source is the `_Method` named "api". -/
structure RpcMethodObj where
  conn : ServerProxyObj
  name : String
  deriving DecidableEq, Repr

/-- Attribute access `_Method.__getattr__`: returns a fresh `_Method` on the same
connection whose name extends the dotted chain. It performs no network
traffic and cannot fail. -/
def RpcMethodObj.getattr (m : RpcMethodObj) (a : String) : RpcMethodObj :=
  { conn := m.conn, name := m.name ++ "." ++ a }

/-- Instance state of the proxy after `__init__`: the four stored
configuration attributes, the derived `url`, and the `api` attribute
(`None` until a handle is installed). -/
structure ServerCommandProxy where
  host : String
  port : Int
  ssl : Bool
  verbose : Bool
  url : String
  api : Option RpcMethodObj
  deriving DecidableEq, Repr

/-- Constructor `ServerCommandProxy.__init__` (source lines 30-41): stores the four
attributes, computes `self.url` with `if self.ssl is True` choosing the
`https` or `http` f-string, and sets `self.api = None`. The Python
signature defaults are `host="localhost"`, `port=9191`, `ssl=False`,
`verbose=False`. -/
def ServerCommandProxy.init (host : String) (port : Int) (ssl : Bool)
    (verbose : Bool) : ServerCommandProxy :=
  { host := host, port := port, ssl := ssl, verbose := verbose,
    url :=
      if ssl = true then
        "https://" ++ host ++ ":" ++ toString port ++ "/rpc/api/xmlrpc"
      else
        "http://" ++ host ++ ":" ++ toString port ++ "/rpc/api/xmlrpc",
    api := Option.none }

/-- The proxy constructed with every parameter left at its Python
default. -/
def ServerCommandProxy.initDefaults : ServerCommandProxy :=
  ServerCommandProxy.init "localhost" 9191 false false

/-- The endpoint URL as a function of the configuration attributes:
the deterministic formula the derived `url` attribute is supposed to
follow at every reachable state. -/
def endpointURL (ssl : Bool) (host : String) (port : Int) : String :=
  if ssl then
    "https://" ++ host ++ ":" ++ toString port ++ "/rpc/api/xmlrpc"
  else
    "http://" ++ host ++ ":" ++ toString port ++ "/rpc/api/xmlrpc"

/-- The value a `with` statement binds when entering the scope of the proxy.
Because the source decorates `__enter__` with `@contextmanager`, calling
`__enter__` builds a `contextlib._GeneratorContextManager`; the
constructor of that wrapper eagerly calls the wrapped plain function,
so the body runs and its return value (the namespace `_Method`) is
stored in the `gen` field of the wrapper. The bound value is the
wrapper carrying that field, not the namespace object itself; the
alternative constructor is the namespace object the body returns. -/
inductive EnterValue where
  | contextWrapper (gen : RpcMethodObj)
  | apiNamespace (m : RpcMethodObj)
  deriving DecidableEq, Repr

/-- The undecorated body of `__enter__` (source line 45): build
`ServerProxy(uri=self.url, verbose=self.verbose, allow_none=True)`,
take its `api` attribute (a `_Method`), store it in `self.api`, and
return it. -/
def ServerCommandProxy.enterBody (p : ServerCommandProxy) :
    ServerCommandProxy × RpcMethodObj :=
  let sp : ServerProxyObj := { uri := p.url, verbose := p.verbose, allow_none := true }
  let m : RpcMethodObj := { conn := sp, name := "api" }
  ({ p with api := some m }, m)

/-- Method `__enter__` as the source defines it (lines 43-46): the
`@contextmanager` decorator replaces the function with a helper that
builds `_GeneratorContextManager(func, args, kwds)`, whose constructor
eagerly evaluates `func(args)`. The wrapped function here is a plain
function, not a generator, so the whole body in `enterBody` runs at
that point: the `ServerProxy` is created, the namespace `_Method` is
stored in `self.api`, and the return value of the body becomes the
`gen` field of the wrapper. What `__enter__` hands back to the `with`
statement is the wrapper, not the namespace object. -/
def ServerCommandProxy.enter (p : ServerCommandProxy) :
    ServerCommandProxy × EnterValue :=
  let r := ServerCommandProxy.enterBody p
  (r.1, EnterValue.contextWrapper r.2)

/-- Observable effects of executing a statement of the proxy. -/
inductive Effect where
  | attrRead (a : String)
  | remoteCall (c : WireCall)
  | closeTransport
  deriving DecidableEq, Repr

/-- How `__exit__` finishes: normally, or by raising `AttributeError`
(attribute access on `None`). -/
inductive ExitOutcome where
  | ok
  | attributeError
  deriving DecidableEq, Repr

/-- Method `__exit__` (source lines 48-49): the body is the bare expression
`self.api.__close`, which name-mangles inside the class body to
`self.api._ServerCommandProxy__close`. When `self.api` is a live
`_Method`, this is `_Method.__getattr__`: it builds a fresh `_Method`
(`RpcMethodObj.getattr`) and discards it, with no call, no network
traffic, and no close of the transport. When `self.api` is `None`, the
attribute access raises `AttributeError`, which nothing catches. -/
def ServerCommandProxy.exit (p : ServerCommandProxy) :
    ServerCommandProxy × List Effect × ExitOutcome :=
  match p.api with
  | Option.none => (p, [], ExitOutcome.attributeError)
  | some m =>
      let _discarded : RpcMethodObj := m.getattr "_ServerCommandProxy__close"
      (p, [Effect.attrRead "_ServerCommandProxy__close"], ExitOutcome.ok)

/-! ### Forwarding methods

Each forwarding method of the catalogue is a single statement
`return self.api.<name>(<wire argument list>)`. For each method the
claims touch, `<name>Call` below is the wire call that statement
constructs (procedure name and ordered argument list copied from the
source line), and the method itself applies the remote oracle to that
call and returns the outcome unmodified. Parameters appear in the
order of the local Python signature; `..._default_...` definitions record
the Python default values of the optional parameters. -/

/-- Wire call of `addAdminAccessGroup` (source line 61):
`self.api.addAdminAccessGroup(authToken, groupName)`. -/
def addAdminAccessGroupCall (authToken groupName : PyVal) : WireCall :=
  { name := "addAdminAccessGroup", args := [authToken, groupName] }

/-- Forwarding method `addAdminAccessGroup`, a representative plain case. -/
def addAdminAccessGroup (api : Remote) (authToken groupName : PyVal) : Outcome :=
  api (addAdminAccessGroupCall authToken groupName)

/-- Wire call of `adjustUserAccountBalance` (source lines 282-284). The
local signature is `(authToken, userName, adjustment, accountName=None,
comment=None)`; the wire call forwards
`(authToken, userName, adjustment, comment, accountName)`. -/
def adjustUserAccountBalanceCall
    (authToken userName adjustment accountName comment : PyVal) : WireCall :=
  { name := "adjustUserAccountBalance",
    args := [authToken, userName, adjustment, comment, accountName] }

/-- Forwarding method `adjustUserAccountBalance` (source lines 259-284). -/
def adjustUserAccountBalance (api : Remote)
    (authToken userName adjustment accountName comment : PyVal) : Outcome :=
  api (adjustUserAccountBalanceCall authToken userName adjustment accountName comment)

/-- Python default of the `accountName` parameter of `adjustUserAccountBalance`. -/
def adjustUserAccountBalance_default_accountName : PyVal := PyVal.none

/-- Python default of the `comment` parameter of `adjustUserAccountBalance`. -/
def adjustUserAccountBalance_default_comment : PyVal := PyVal.none

/-- Wire call of `adjustUserAccountBalanceByGroup` (source lines
338-340). The local signature is `(authToken, group, adjustment,
accountName=None, comment=None)`; the wire call forwards
`(authToken, accountName, group, adjustment, comment)`. -/
def adjustUserAccountBalanceByGroupCall
    (authToken group adjustment accountName comment : PyVal) : WireCall :=
  { name := "adjustUserAccountBalanceByGroup",
    args := [authToken, accountName, group, adjustment, comment] }

/-- Forwarding method `adjustUserAccountBalanceByGroup` (source lines 315-340). -/
def adjustUserAccountBalanceByGroup (api : Remote)
    (authToken group adjustment accountName comment : PyVal) : Outcome :=
  api (adjustUserAccountBalanceByGroupCall authToken group adjustment accountName comment)

/-- Wire call of `disablePrinter` (source line 661):
`self.api.disablePrinter(authToken, serverName, printerName,
disableMins)`. -/
def disablePrinterCall
    (authToken serverName printerName disableMins : PyVal) : WireCall :=
  { name := "disablePrinter",
    args := [authToken, serverName, printerName, disableMins] }

/-- Forwarding method `disablePrinter` (source lines 642-661). -/
def disablePrinter (api : Remote)
    (authToken serverName printerName disableMins : PyVal) : Outcome :=
  api (disablePrinterCall authToken serverName printerName disableMins)

/-- Python default of the `disableMins` parameter of `disablePrinter` (source line
647): the signature reads `disableMins=int`, so the default value is
the builtin type object `int`, not `None` and not a number. -/
def disablePrinter_default_disableMins : PyVal := PyVal.typeInt

/-- Wire call of `setPrinterProperty` (source lines 1825-1827). The
local signature is `(authToken, printerName, propertyName, serverName,
propertyValue="SIMPLE")`; the wire call forwards
`(authToken, propertyName, propertyValue, serverName, printerName)`. -/
def setPrinterPropertyCall
    (authToken printerName propertyName serverName propertyValue : PyVal) : WireCall :=
  { name := "setPrinterProperty",
    args := [authToken, propertyName, propertyValue, serverName, printerName] }

/-- Forwarding method `setPrinterProperty` (source lines 1791-1827). -/
def setPrinterProperty (api : Remote)
    (authToken printerName propertyName serverName propertyValue : PyVal) : Outcome :=
  api (setPrinterPropertyCall authToken printerName propertyName serverName propertyValue)

/-- Python default of the `propertyValue` parameter of `setPrinterProperty` (source
line 1797): the string "SIMPLE". -/
def setPrinterProperty_default_propertyValue : PyVal := PyVal.str "SIMPLE"

/-- Wire call of `setUserOverdraftMode` (source line 2070):
`self.api.setUserOverdraftMode(authToken, userName, mode)`. The `mode`
string is forwarded without any local inspection. -/
def setUserOverdraftModeCall (authToken userName mode : PyVal) : WireCall :=
  { name := "setUserOverdraftMode", args := [authToken, userName, mode] }

/-- Forwarding method `setUserOverdraftMode` (source lines 2056-2070). -/
def setUserOverdraftMode (api : Remote)
    (authToken userName mode : PyVal) : Outcome :=
  api (setUserOverdraftModeCall authToken userName mode)

/-- Forwarding method `installLicense` (source lines 1222-1231). Its body is
`return self.installLicense(authToken, licenseFile)`: the method calls
ITSELF with the same arguments instead of `self.api.installLicense`.
Each recursive call consumes a Python stack frame and performs no other
work, so the embedding takes the available stack depth as fuel: the
result is `some` outcome if the body ever produces one within that
depth, and `Option.none` when the stack is exhausted first. The remote
oracle is a parameter, so the theorems can show the result never
depends on it (no remote procedure is ever invoked). -/
def installLicense : Nat → Remote → PyVal → PyVal → Option Outcome
  | 0, _, _, _ => Option.none
  | Nat.succ fuel, api, authToken, licenseFile =>
      installLicense fuel api authToken licenseFile

/-! ### Proxy state over sequences of operations

The body of every forwarding method is a single `return` statement that only
reads `self.api`; no statement outside `__init__` and the `__enter__`
body assigns any attribute of the proxy. The step function below runs
one operation and keeps the resulting instance state. `enterOp` is the
decorated `__enter__` call (which runs the body eagerly through the
`contextlib` wrapper); `enterBodyOp` is a direct call of the
undecorated body, kept as a separate operation so the invariant covers
it on its own as well. -/

/-- One operation on a constructed proxy instance. -/
inductive ProxyOp where
  | enterOp
  | enterBodyOp
  | exitOp
  | callOp (c : WireCall)
  deriving DecidableEq, Repr

/-- Effect of one operation on the instance state of the proxy. Forwarding
calls (`callOp`) read `self.api` and perform the remote round trip but
assign no attribute, so they leave the state unchanged. -/
def stepProxy (p : ServerCommandProxy) : ProxyOp → ServerCommandProxy
  | ProxyOp.enterOp => (ServerCommandProxy.enter p).1
  | ProxyOp.enterBodyOp => (ServerCommandProxy.enterBody p).1
  | ProxyOp.exitOp => (ServerCommandProxy.exit p).1
  | ProxyOp.callOp _ => p

/-- Run a sequence of operations from a state. -/
def runOps (p : ServerCommandProxy) : List ProxyOp → ServerCommandProxy
  | [] => p
  | op :: ops => runOps (stepProxy p op) ops

/-- A proxy state is reachable when some construction followed by some
sequence of scoped acquisitions, releases and forwarding calls produces
it. -/
def Reachable (p : ServerCommandProxy) : Prop :=
  ∃ host port ssl verbose ops,
    p = runOps (ServerCommandProxy.init host port ssl verbose) ops

/-! ### Specification-side definitions

The following definitions follow the wording of the specification and
of the claims, to be compared with the definitions above that were
translated from the source. -/

/-- Documented wire order of `setPrinterProperty`, following the claim:
after the token, the arguments are server name, printer name, property
name, property value. -/
def documentedWire_setPrinterProperty
    (authToken serverName printerName propertyName propertyValue : PyVal) : WireCall :=
  { name := "setPrinterProperty",
    args := [authToken, serverName, printerName, propertyName, propertyValue] }

/-- Documented-order requirement of `adjustUserAccountBalanceByGroup`,
following the claim: in the wire argument list, the group and the
adjustment come before any account name. -/
def documentedOrder_adjustByGroup
    (args : List PyVal) (group adjustment accountName : PyVal) : Prop :=
  List.indexOf group args < List.indexOf accountName args ∧
  List.indexOf adjustment args < List.indexOf accountName args

/-- A concrete live handle: the `_Method` named "api" on a transport
bound to the default endpoint, as the `__enter__` body would create. -/
def liveHandle : RpcMethodObj :=
  { conn := { uri := "http://localhost:9191/rpc/api/xmlrpc",
              verbose := false, allow_none := true },
    name := "api" }

/-- A concrete proxy whose `api` attribute holds a live handle. -/
def liveProxy : ServerCommandProxy :=
  { ServerCommandProxy.initDefaults with api := some liveHandle }

/-! ### Helper lemmas -/

/-- No operation of the step function writes the `host`, `port`, `ssl`
or `url` attribute: only `__init__` assigns them. -/
theorem stepProxy_preserves_config (p : ServerCommandProxy) (op : ProxyOp) :
    (stepProxy p op).host = p.host ∧ (stepProxy p op).port = p.port ∧
    (stepProxy p op).ssl = p.ssl ∧ (stepProxy p op).url = p.url := by
  cases op with
  | enterOp => exact ⟨rfl, rfl, rfl, rfl⟩
  | enterBodyOp => exact ⟨rfl, rfl, rfl, rfl⟩
  | exitOp =>
      cases hp : p.api <;>
        simp [stepProxy, ServerCommandProxy.exit, hp]
  | callOp c => exact ⟨rfl, rfl, rfl, rfl⟩

/-! ### Claims -/

/-- C1. The claim states that every public forwarding method, with a
live handle, invokes exactly one remote procedure named like the local
method and returns its result unmodified, terminating whenever the
remote call terminates — including `installLicense`. The code refutes
this at `installLicense`: its body re-invokes `self.installLicense`
with the same arguments, so for EVERY stack depth (fuel) the call
produces no outcome — it never reaches the remote oracle (the result is
independent of the oracle) and never terminates with a value, while the
remote call was never even started. -/
theorem installLicense_self_recursion_never_reaches_remote
    (fuel : Nat) (api apiB : Remote) (authToken licenseFile : PyVal) :
    installLicense fuel api authToken licenseFile = Option.none ∧
    installLicense fuel api authToken licenseFile =
      installLicense fuel apiB authToken licenseFile := by
  induction fuel with
  | zero => exact ⟨rfl, rfl⟩
  | succ n ih =>
      simp only [installLicense]
      exact ih

/-- C2. For every (host, port, ssl) triple the URL computed by
`__init__` is the `https` form exactly when `ssl` is true and the
`http` form otherwise. -/
theorem endpoint_url_formula (host : String) (port : Int) (ssl verbose : Bool) :
    (ServerCommandProxy.init host port ssl verbose).url =
      if ssl then
        "https://" ++ host ++ ":" ++ toString port ++ "/rpc/api/xmlrpc"
      else
        "http://" ++ host ++ ":" ++ toString port ++ "/rpc/api/xmlrpc" := by
  cases ssl <;> rfl

/-- C3. `adjustUserAccountBalance` places on the wire the argument list
reordered as (token, user, adjustment, comment, accountName); with both
optional parameters left at their defaults the remote procedure
receives (token, userName, adjustment, None, None) in that order, and
the proxy returns the remote outcome unchanged (it IS the application
of the remote oracle to that wire call). -/
theorem adjustUserAccountBalance_wire_reorder (api : Remote)
    (authToken userName adjustment accountName comment : PyVal) :
    adjustUserAccountBalance api authToken userName adjustment accountName comment =
      api { name := "adjustUserAccountBalance",
            args := [authToken, userName, adjustment, comment, accountName] } ∧
    adjustUserAccountBalance api authToken userName adjustment
        adjustUserAccountBalance_default_accountName
        adjustUserAccountBalance_default_comment =
      api { name := "adjustUserAccountBalance",
            args := [authToken, userName, adjustment, PyVal.none, PyVal.none] } :=
  ⟨rfl, rfl⟩

/-- C4. The claim states that every forwarding method places its wire
arguments in the documented order, in particular
`adjustUserAccountBalanceByGroup` (group and adjustment before any
account name) and `setPrinterProperty` (token, server name, printer
name, property name, property value). The code refutes both named
cases at concrete arguments: the by-group call puts the account name
second, before the group and the adjustment, and `setPrinterProperty`
sends (token, propertyName, propertyValue, serverName, printerName). -/
theorem wire_order_contradicts_documented_order :
    (adjustUserAccountBalanceByGroupCall (PyVal.str "tok") (PyVal.str "grp")
        (PyVal.int 5) (PyVal.str "acct") PyVal.none).args =
      [PyVal.str "tok", PyVal.str "acct", PyVal.str "grp", PyVal.int 5, PyVal.none] ∧
    ¬ documentedOrder_adjustByGroup
        (adjustUserAccountBalanceByGroupCall (PyVal.str "tok") (PyVal.str "grp")
          (PyVal.int 5) (PyVal.str "acct") PyVal.none).args
        (PyVal.str "grp") (PyVal.int 5) (PyVal.str "acct") ∧
    (setPrinterPropertyCall (PyVal.str "tok") (PyVal.str "pr") (PyVal.str "disabled")
        (PyVal.str "sv") (PyVal.str "N")).args =
      [PyVal.str "tok", PyVal.str "disabled", PyVal.str "N",
        PyVal.str "sv", PyVal.str "pr"] ∧
    setPrinterPropertyCall (PyVal.str "tok") (PyVal.str "pr") (PyVal.str "disabled")
        (PyVal.str "sv") (PyVal.str "N") ≠
      documentedWire_setPrinterProperty (PyVal.str "tok") (PyVal.str "sv")
        (PyVal.str "pr") (PyVal.str "disabled") (PyVal.str "N") := by
  refine ⟨rfl, ?_, rfl, ?_⟩
  · unfold documentedOrder_adjustByGroup adjustUserAccountBalanceByGroupCall
    decide
  · decide

/-- C5. The claim states that every optional parameter not supplied by
the caller defaults to a null sentinel and is forwarded as such, in
particular the disable-minutes parameter of `disablePrinter` and the
property-value parameter of `setPrinterProperty`. The code refutes both
named cases: `disableMins` defaults to the builtin type object `int`
and `propertyValue` defaults to the string "SIMPLE", and each default
is what reaches the wire (the fixed-arity part does hold: the argument
lists keep their full length). -/
theorem optional_defaults_not_null_sentinel :
    disablePrinter_default_disableMins = PyVal.typeInt ∧
    disablePrinter_default_disableMins ≠ PyVal.none ∧
    (disablePrinterCall (PyVal.str "tok") (PyVal.str "sv") (PyVal.str "pr")
        disablePrinter_default_disableMins).args =
      [PyVal.str "tok", PyVal.str "sv", PyVal.str "pr", PyVal.typeInt] ∧
    setPrinterProperty_default_propertyValue = PyVal.str "SIMPLE" ∧
    setPrinterProperty_default_propertyValue ≠ PyVal.none ∧
    (setPrinterPropertyCall (PyVal.str "tok") (PyVal.str "pr")
        (PyVal.str "cost-model") (PyVal.str "sv")
        setPrinterProperty_default_propertyValue).args =
      [PyVal.str "tok", PyVal.str "cost-model", PyVal.str "SIMPLE",
        PyVal.str "sv", PyVal.str "pr"] := by
  refine ⟨rfl, ?_, rfl, rfl, ?_, rfl⟩ <;> decide

/-- C6. The claim states that entering scoped acquisition creates a
remote handle bound to the endpoint URL (verbose passed through, null
values permitted) AND returns the namespace object the forwarding
methods call through. The code refutes the second half: on the
default-constructed proxy the body does run (the `contextlib` wrapper
evaluates it eagerly), so the handle with exactly the configured
transport is created and stored in `api`, but the value handed back to
the `with` statement is the `_GeneratorContextManager` wrapper, never
the namespace object itself. -/
theorem enter_returns_wrapper_not_namespace :
    (ServerCommandProxy.enter ServerCommandProxy.initDefaults).1.api =
      some { conn := { uri := "http://localhost:9191/rpc/api/xmlrpc",
                       verbose := false, allow_none := true },
             name := "api" } ∧
    (ServerCommandProxy.enter ServerCommandProxy.initDefaults).2 =
      EnterValue.contextWrapper
        { conn := { uri := "http://localhost:9191/rpc/api/xmlrpc",
                    verbose := false, allow_none := true },
          name := "api" } ∧
    ∀ m : RpcMethodObj,
      (ServerCommandProxy.enter ServerCommandProxy.initDefaults).2 ≠
        EnterValue.apiNamespace m := by
  refine ⟨by decide, by decide, ?_⟩
  intro m h
  exact EnterValue.noConfusion h

/-- C7. The claim states that scope exit triggers the handle release
exactly once and swallows any failure of the release. The code refutes
this: `__exit__` evaluates the bare attribute `self.api.__close` — on
the default-constructed proxy (`api` still `None`, as every use through
a `with` statement leaves it) the attribute access raises an
`AttributeError` that nothing catches, and on a proxy with a live
handle the body performs only an attribute read and never closes the
transport, so no release is ever triggered. -/
theorem exit_releases_nothing_and_raises_on_missing_handle :
    (ServerCommandProxy.exit ServerCommandProxy.initDefaults).2.2 =
      ExitOutcome.attributeError ∧
    (ServerCommandProxy.exit liveProxy).2.1 =
      [Effect.attrRead "_ServerCommandProxy__close"] ∧
    Effect.closeTransport ∉ (ServerCommandProxy.exit liveProxy).2.1 ∧
    Effect.closeTransport ∉ (ServerCommandProxy.exit ServerCommandProxy.initDefaults).2.1 := by
  refine ⟨rfl, rfl, ?_, ?_⟩ <;> decide

/-- C8. `setUserOverdraftMode` forwards any mode string verbatim — for
EVERY string, including ones outside the documented set — raising no
local error (the embedding is a total function applying the oracle),
and its outcome is a fault exactly when the remote outcome is. -/
theorem setUserOverdraftMode_passthrough (api : Remote)
    (authToken userName : PyVal) (mode : String) :
    setUserOverdraftMode api authToken userName (PyVal.str mode) =
      api { name := "setUserOverdraftMode",
            args := [authToken, userName, PyVal.str mode] } ∧
    (setUserOverdraftMode api authToken userName (PyVal.str mode)).isFault =
      (api { name := "setUserOverdraftMode",
             args := [authToken, userName, PyVal.str mode] }).isFault :=
  ⟨rfl, rfl⟩

/-- C9. At every reachable proxy state — construction followed by any
sequence of scoped acquisitions, releases and forwarding calls — the
stored `url` equals the deterministic formula over the current `ssl`,
`host` and `port` attributes. -/
theorem proxy_url_invariant (p : ServerCommandProxy) (h : Reachable p) :
    p.url = endpointURL p.ssl p.host p.port := by
  obtain ⟨host, port, ssl, verbose, ops, rfl⟩ := h
  have H : ∀ q : ServerCommandProxy,
      q.url = endpointURL q.ssl q.host q.port →
      (runOps q ops).url =
        endpointURL (runOps q ops).ssl (runOps q ops).host (runOps q ops).port := by
    induction ops with
    | nil => intro q hq; exact hq
    | cons op ops ih =>
        intro q hq
        simp only [runOps]
        apply ih
        obtain ⟨h1, h2, h3, h4⟩ := stepProxy_preserves_config q op
        rw [h1, h2, h3, h4, hq]
  apply H
  cases ssl <;> rfl

/-- A concrete reachable state: secure configuration, then an executed
enter body, an exit and a decorated enter. -/
def reachedProxy : ServerCommandProxy :=
  runOps (ServerCommandProxy.init "printsrv" 9192 true false)
    [ProxyOp.enterBodyOp, ProxyOp.exitOp, ProxyOp.enterOp]

/-- Witness for C9 at a concrete reachable state. -/
theorem proxy_url_invariant_witness :
    reachedProxy.url = endpointURL reachedProxy.ssl reachedProxy.host reachedProxy.port :=
  proxy_url_invariant reachedProxy
    ⟨"printsrv", 9192, true, false,
      [ProxyOp.enterBodyOp, ProxyOp.exitOp, ProxyOp.enterOp], rfl⟩

/-- C10. With a non-null handle, `__exit__` performs exactly one
attribute read (the name-mangled `_ServerCommandProxy__close`), makes
no close call and no remote call, completes normally, and returns the
proxy state unchanged in every field. -/
theorem exit_frame_only_attr_read (p : ServerCommandProxy) (m : RpcMethodObj)
    (h : p.api = some m) :
    (ServerCommandProxy.exit p).1 = p ∧
    (ServerCommandProxy.exit p).2.1 = [Effect.attrRead "_ServerCommandProxy__close"] ∧
    (ServerCommandProxy.exit p).2.2 = ExitOutcome.ok ∧
    Effect.closeTransport ∉ (ServerCommandProxy.exit p).2.1 ∧
    (∀ c : WireCall, Effect.remoteCall c ∉ (ServerCommandProxy.exit p).2.1) := by
  simp [ServerCommandProxy.exit, h]

/-- Witness for C10 at a concrete proxy holding a live handle. -/
theorem exit_frame_only_attr_read_witness :
    (ServerCommandProxy.exit liveProxy).1 = liveProxy ∧
    (ServerCommandProxy.exit liveProxy).2.1 =
      [Effect.attrRead "_ServerCommandProxy__close"] ∧
    (ServerCommandProxy.exit liveProxy).2.2 = ExitOutcome.ok ∧
    Effect.closeTransport ∉ (ServerCommandProxy.exit liveProxy).2.1 ∧
    (∀ c : WireCall, Effect.remoteCall c ∉ (ServerCommandProxy.exit liveProxy).2.1) :=
  exit_frame_only_attr_read liveProxy liveHandle rfl

end PaperCut
